import Mathlib

/-!
# Coffee-shop management: verification of the order/pricing/assignment core

Shallow embedding of the Python sources of `snsevval/coffee-shop-management`:

* `src/models/drink.py`    → `Drink`, `Drink.get_final_price`
* `src/models/customer.py` → `Customer` (tier as a tag), balance/loyalty ops
* `src/models/order.py`    → `Order`, pricing, the status state machine
* `src/models/barista.py`  → `Barista`, `take_order`, availability
* `src/managers/cafe_manager.py` → `MState` and the ledger commands

Money is modelled as `ℚ` (Python floats; all constants of the program are
exact decimal fractions).  Python's in-place mutation of shared objects is
modelled by explicit state passing: object identity becomes an `id : ℕ`
field, and the manager state holds the authoritative copies.  A Python
`raise` is an `Except.error` / `(some err, ·)` result; a manager command
returns the state as mutated up to the point of the raise (Python
exceptions do not roll back prior mutations).
-/

namespace CoffeeShop

/-- Error taxonomy: one tag per distinct `raise ValueError(...)` site kind
in the source (Python raises `ValueError` with a message everywhere). -/
inductive CafeError where
  | validationError
  | invalidState
  | invalidTransition
  | insufficientFunds
  | cafeClosed
  | emptyOrder
  | paymentFailed
  | notFound
  | notPending
  | workerUnavailable
deriving DecidableEq, Repr

/-- Drink sizes, `src/models/drink.py` (`size` field, validated against
`["Small", "Medium", "Large"]`). -/
inductive Size where
  | Small
  | Medium
  | Large
deriving DecidableEq, Repr

/-- Source `Drink.get_final_price`'s `size_multipliers` dict (drink.py lines 70-74). -/
def size_multiplier : Size → ℚ
  | .Small => 8/10
  | .Medium => 1
  | .Large => 13/10

/-- Source `Drink` (drink.py).  Only the fields the core reads are kept:
`category`, `ingredients` and timestamps never influence pricing or the
order lifecycle. -/
structure Drink where
  name : String
  price : ℚ
  size : Size
deriving DecidableEq, Repr

/-- Source `Drink.get_final_price` (drink.py lines 68-75): base price times the
size multiplier. -/
def Drink.get_final_price (d : Drink) : ℚ :=
  d.price * size_multiplier d.size

/-- Source `Drink.__eq__` (drink.py lines 104-108): two drinks are equal iff their
name and size agree. -/
def Drink.beqd (a b : Drink) : Bool :=
  a.name == b.name && (a.size == b.size)

/-- Customer tier: the three concrete subclasses of `Customer`
(customer.py). -/
inductive CustomerType where
  | RegularCustomer
  | PremiumCustomer
  | VIPCustomer
deriving DecidableEq, Repr

/-- One entry of `Customer._order_history` as appended by
`Customer.add_to_history` (customer.py lines 63-69): order id, timestamp
(abstracted to a tick), total. -/
structure HistoryEntry where
  order_id : ℕ
  date : ℕ
  total : ℚ
deriving DecidableEq, Repr

/-- Source `Customer` (customer.py): the abstract base's data plus the tier tag
that selects the subclass behaviour. -/
structure Customer where
  id : ℕ
  ctype : CustomerType
  name : String
  email : String
  phone : String
  balance : ℚ
  loyalty_points : ℤ
  order_history : List HistoryEntry
deriving DecidableEq, Repr

/-- The `_discount_rate` each subclass sets (customer.py lines 109, 126, 164). -/
def discount_rate : CustomerType → ℚ
  | .RegularCustomer => 0
  | .PremiumCustomer => 1/10
  | .VIPCustomer => 2/10

/-- The per-tier loyalty multiplier in `earn_loyalty_points`
(customer.py lines 115-118, 138-141, 179-182): 1x / 2x / 3x. -/
def loyalty_multiplier : CustomerType → ℤ
  | .RegularCustomer => 1
  | .PremiumCustomer => 2
  | .VIPCustomer => 3

/-- Python's `int(q)` on a float: truncation toward zero. -/
def int_trunc (q : ℚ) : ℤ :=
  if 0 ≤ q then ⌊q⌋ else -⌊-q⌋

/-- Source `calculate_discount` of the three subclasses (customer.py lines
111-113, 134-136, 175-177): `amount * self._discount_rate` (0 for Regular). -/
def Customer.calculate_discount (c : Customer) (amount : ℚ) : ℚ :=
  amount * discount_rate c.ctype

/-- Source `earn_loyalty_points` of the three subclasses (customer.py lines
115-118, 138-141, 179-182): `int(amount / 10)` times the tier multiplier. -/
def Customer.earn_loyalty_points (c : Customer) (amount : ℚ) : Customer :=
  { c with loyalty_points := c.loyalty_points + int_trunc (amount / 10) * loyalty_multiplier c.ctype }

/-- Source `Customer.add_balance` (customer.py lines 48-53): rejects non-positive
amounts. -/
def Customer.add_balance (c : Customer) (amount : ℚ) : Except CafeError Customer :=
  if amount ≤ 0 then .error .validationError
  else .ok { c with balance := c.balance + amount }

/-- Source `Customer.deduct_balance` (customer.py lines 55-60): fails iff
`amount > balance`. -/
def Customer.deduct_balance (c : Customer) (amount : ℚ) : Except CafeError Customer :=
  if c.balance < amount then .error .insufficientFunds
  else .ok { c with balance := c.balance - amount }

/-- Source `Customer.add_to_history` (customer.py lines 63-69). -/
def Customer.add_to_history (c : Customer) (oid : ℕ) (t : ℕ) (total : ℚ) : Customer :=
  { c with order_history := c.order_history ++ [⟨oid, t, total⟩] }

/-- Source `OrderStatus` (order.py lines 5-11). -/
inductive OrderStatus where
  | PENDING
  | PREPARING
  | READY
  | DELIVERED
  | CANCELLED
deriving DecidableEq, Repr

/-- Source `Order` (order.py).  The shared `customer`/`barista` references become
ids resolved against the manager state; timestamps are dropped (they never
guard behaviour); `discount_applied` is the display cache written by
`calculate_discount`. -/
structure Order where
  id : ℕ
  customerId : ℕ
  baristaId : Option ℕ
  items : List (Drink × ℤ)
  status : OrderStatus
  notes : String
  discount_applied : ℚ
deriving DecidableEq, Repr

/-- The loop body of `Order.add_item` (order.py lines 78-85): bump the
quantity of the first drink equal (name+size) to `d`, else append. -/
def add_item_list : List (Drink × ℤ) → Drink → ℤ → List (Drink × ℤ)
  | [], d, q => [(d, q)]
  | (e, qe) :: rest, d, q =>
    if Drink.beqd e d then (e, qe + q) :: rest
    else (e, qe) :: add_item_list rest d q

/-- Source `Order.add_item` (order.py lines 73-85): rejects `quantity <= 0`,
otherwise merges/appends.  Note: the source checks no order status here. -/
def Order.add_item (o : Order) (d : Drink) (q : ℤ) : Except CafeError Order :=
  if q ≤ 0 then .error .validationError
  else .ok { o with items := add_item_list o.items d q }

/-- Source `Order.remove_item` (order.py lines 87-89): keep the lines whose drink
is not equal to `d`.  No status check in the source. -/
def Order.remove_item (o : Order) (d : Drink) : Order :=
  { o with items := o.items.filter (fun p => !(Drink.beqd p.1 d)) }

/-- Source `Order.clear_items` (order.py lines 91-93).  No status check in the
source. -/
def Order.clear_items (o : Order) : Order :=
  { o with items := [] }

/-- Source `Order.calculate_subtotal` (order.py lines 96-101):
`Σ drink.get_final_price() * quantity`. -/
def Order.calculate_subtotal (o : Order) : ℚ :=
  (o.items.map (fun p => p.1.get_final_price * (p.2 : ℚ))).sum

/-- The value computed by `Order.calculate_discount` (order.py lines
103-108). -/
def Order.calculate_discount (o : Order) (c : Customer) : ℚ :=
  c.calculate_discount o.calculate_subtotal

/-- The cache write `self.__discount_applied = discount` performed by
`Order.calculate_discount` (order.py line 107). -/
def Order.read_discount (o : Order) (c : Customer) : Order :=
  { o with discount_applied := o.calculate_discount c }

/-- Source `Order.total_price` (order.py lines 110-115): subtotal minus discount,
both recomputed from the current lines. -/
def Order.total_price (o : Order) (c : Customer) : ℚ :=
  o.calculate_subtotal - o.calculate_discount c

/-- Reading `total_price` in the source also performs the discount-cache
write; this pairs the value with the order carrying the updated cache. -/
def Order.read_total (o : Order) (c : Customer) : ℚ × Order :=
  (o.total_price c, o.read_discount c)

/-- Source `Order.get_item_count` (order.py lines 186-188): sum of the line
quantities (this is also `len(order)` via `__len__`). -/
def Order.get_item_count (o : Order) : ℤ :=
  (o.items.map Prod.snd).sum

/-- Source `Order.start_preparation` (order.py lines 118-125): only PENDING
orders may start; binds the barista and moves to PREPARING.  The source
checks nothing else (no line-count check, no worker check). -/
def Order.start_preparation (o : Order) (bid : ℕ) : Except CafeError Order :=
  if o.status ≠ .PENDING then .error .invalidState
  else .ok { o with baristaId := some bid, status := .PREPARING }

/-- Source `Order.mark_as_ready` (order.py lines 127-134): only PREPARING → READY. -/
def Order.mark_as_ready (o : Order) : Except CafeError Order :=
  if o.status ≠ .PREPARING then .error .invalidState
  else .ok { o with status := .READY }

/-- Source `Order.mark_as_delivered` (order.py lines 136-150): only READY →
DELIVERED; then awards loyalty points on `total_price` and appends to the
customer history (each `total_price` read also writes the discount cache). -/
def Order.mark_as_delivered (o : Order) (c : Customer) (t : ℕ) :
    Except CafeError (Order × Customer) :=
  if o.status ≠ .READY then .error .invalidState
  else
    let o1 : Order := { o with status := .DELIVERED }
    let r1 := o1.read_total c
    let c1 := c.earn_loyalty_points r1.1
    let r2 := r1.2.read_total c1
    let c2 := c1.add_to_history o.id t r2.1
    .ok (r2.2, c2)

/-- Source `Order.cancel` (order.py lines 152-158): fails on DELIVERED and
CANCELLED, otherwise (PENDING, PREPARING — and also READY) sets CANCELLED. -/
def Order.cancel (o : Order) : Except CafeError Order :=
  if o.status = .DELIVERED ∨ o.status = .CANCELLED then .error .invalidTransition
  else .ok { o with status := .CANCELLED }

/-- Source `Order.process_payment` (order.py lines 161-170): read the total
(writing the discount cache), try to debit the customer; a debit failure
is caught and reported as `False` with the customer unchanged. -/
def Order.process_payment (o : Order) (c : Customer) : Bool × Order × Customer :=
  let r := o.read_total c
  match c.deduct_balance r.1 with
  | .ok c1 => (true, r.2, c1)
  | .error _ => (false, r.2, c)

/-- One completed-order entry of `Barista._orders_completed`
(barista.py lines 141-146). -/
structure CompletedEntry where
  order_id : ℕ
  customer : String
  completed_at : ℕ
  total : ℚ
deriving DecidableEq, Repr

/-- Source `Barista` (barista.py); shift timestamps are dropped (they only feed
the earnings figure, which no claim touches beyond round-tripping). -/
structure Barista where
  id : ℕ
  name : String
  email : String
  experience_years : ℤ
  hourly_rate : ℚ
  orders_completed : List CompletedEntry
  current_order : Option ℕ
  total_earnings : ℚ
  is_on_duty : Bool
deriving DecidableEq, Repr

/-- Source `Barista.is_available` (barista.py lines 67-70): on duty and not
holding an order. -/
def Barista.is_available (b : Barista) : Bool :=
  b.is_on_duty && b.current_order.isNone

/-- Source `Barista.take_order` (barista.py lines 117-130): requires on duty, no
current order, and the order PENDING; then binds `current_order` and calls
`start_preparation` (which re-checks PENDING and succeeds). -/
def Barista.take_order (b : Barista) (o : Order) : Except CafeError (Barista × Order) :=
  if !b.is_on_duty then .error .invalidState
  else if b.current_order.isSome then .error .invalidState
  else if o.status ≠ .PENDING then .error .invalidState
  else
    match o.start_preparation b.id with
    | .ok o1 => .ok ({ b with current_order := some o.id }, o1)
    | .error e => .error e

/-- Source `Barista.cancel_current_order` (barista.py lines 153-159): fails if no
current order, otherwise clears it. -/
def Barista.cancel_current_order (b : Barista) : Except CafeError Barista :=
  if b.current_order = none then .error .invalidState
  else .ok { b with current_order := none }

/-- The four lifecycle events of an order, as dispatched to the `Order`
methods. -/
inductive OrderEvent where
  | startPrep (bid : ℕ)
  | markReady
  | markDelivered
  | cancelEv
deriving DecidableEq, Repr

/-- Dispatch an event to the corresponding `Order` method (the customer
and the clock are only consulted by `mark_as_delivered`). -/
def order_step (o : Order) (c : Customer) (t : ℕ) : OrderEvent → Except CafeError Order
  | .startPrep bid => o.start_preparation bid
  | .markReady => o.mark_as_ready
  | .markDelivered => (o.mark_as_delivered c t).map Prod.fst
  | .cancelEv => o.cancel

/-- Modelled from the spec's state-transition table (section 4.2), amended
where the code differs: the code additionally allows `cancel` from READY,
and has no "order has ≥ 1 line" guard on `start_preparation`. -/
def spec_table : OrderStatus → OrderEvent → Option OrderStatus
  | .PENDING, .startPrep _ => some .PREPARING
  | .PREPARING, .markReady => some .READY
  | .READY, .markDelivered => some .DELIVERED
  | .PENDING, .cancelEv => some .CANCELLED
  | .PREPARING, .cancelEv => some .CANCELLED
  | .READY, .cancelEv => some .CANCELLED
  | _, _ => none

/-- Source `.ok` projection of a fallible result. -/
def ex_opt {α : Type} (r : Except CafeError α) : Option α :=
  match r with
  | .ok a => some a
  | .error _ => none

/-- Is the fallible result a success? -/
def ex_ok {α : Type} (r : Except CafeError α) : Bool :=
  match r with
  | .ok _ => true
  | .error _ => false

/-- C1: for every order, at every observation point, `total_price` equals
subtotal minus discount, recomputed fresh from the current lines on each
read (the stored `discount_applied` cache and the status are irrelevant to
the value); each line contributes base price x size multiplier x quantity
with multipliers 0.8/1.0/1.3, and the discount is the tier rate
(0 / 10% / 20%) times the subtotal. -/
theorem C1_total_price_recomputed (o : Order) (c : Customer) (x : ℚ) (st : OrderStatus) :
    o.total_price c = o.calculate_subtotal - o.calculate_discount c
    ∧ Order.total_price { o with discount_applied := x, status := st } c = o.total_price c
    ∧ o.calculate_subtotal
        = (o.items.map (fun p => p.1.price * size_multiplier p.1.size * (p.2 : ℚ))).sum
    ∧ o.calculate_discount c = o.calculate_subtotal * discount_rate c.ctype
    ∧ size_multiplier .Small = 8/10
    ∧ size_multiplier .Medium = 1
    ∧ size_multiplier .Large = 13/10
    ∧ discount_rate .RegularCustomer = 0
    ∧ discount_rate .PremiumCustomer = 1/10
    ∧ discount_rate .VIPCustomer = 2/10 := by
  refine ⟨rfl, rfl, rfl, rfl, rfl, rfl, rfl, rfl, rfl, rfl⟩

/-- A concrete READY order with one line (Latte, Medium, 35). -/
def readyOrder1 : Order :=
  { id := 1, customerId := 1, baristaId := some 1,
    items := [({ name := "Latte", price := 35, size := .Medium }, 1)],
    status := .READY, notes := "", discount_applied := 0 }

/-- A concrete PENDING order with no lines at all. -/
def emptyPendingOrder1 : Order :=
  { id := 2, customerId := 1, baristaId := none,
    items := [], status := .PENDING, notes := "", discount_applied := 0 }

/-- A concrete on-duty barista holding no order. -/
def freeBarista1 : Barista :=
  { id := 1, name := "Ayse", email := "ayse@cafe.com", experience_years := 5,
    hourly_rate := 60, orders_completed := [], current_order := none,
    total_earnings := 0, is_on_duty := true }

/-- C2 counterexample: the code lets `cancel` succeed on a READY order
(the claim says Cancelled is reachable only from Pending or Preparing and
that any event in a non-matching state fails leaving the status
unchanged), and `take_order` accepts a PENDING order with zero lines for
an on-duty free barista (the claim says `start_preparation` requires at
least one line). -/
theorem C2_counterexample :
    Order.cancel readyOrder1 = Except.ok { readyOrder1 with status := .CANCELLED }
    ∧ ex_ok (Barista.take_order freeBarista1 emptyPendingOrder1) = true
    ∧ emptyPendingOrder1.items = [] := by
  exact ⟨rfl, rfl, rfl⟩

/-- C2 amended: the status changes exactly along the table
Pending → Preparing → Ready → Delivered with Cancelled reachable from
Pending, Preparing, *or Ready*; an event dispatched in any other state
fails (no status is produced, the order is unmodified), a successful event
leaves the item lines unchanged, and `take_order` succeeds exactly when
the worker is on duty with no current order and the order is PENDING — in
particular no "at least one line" guard exists anywhere on the path. -/
theorem C2_amended_state_machine (o : Order) (c : Customer) (t : ℕ)
    (e : OrderEvent) (b : Barista) :
    (ex_opt (order_step o c t e)).map Order.status = spec_table o.status e
    ∧ (ex_opt (order_step o c t e)).map Order.items
        = (spec_table o.status e).map (fun _ => o.items)
    ∧ ex_ok (Barista.take_order b o)
        = (b.is_on_duty && b.current_order.isNone && (o.status == .PENDING)) := by
  obtain ⟨oid, cid, obid, its, st, nts, disc⟩ := o
  obtain ⟨bid, bn, be, bexp, brate, bcomp, bcur, bearn, bduty⟩ := b
  refine ⟨?_, ?_, ?_⟩
  · cases e <;> cases st <;> rfl
  · cases e <;> cases st <;> rfl
  · cases bduty <;> cases bcur <;> cases st <;> rfl

/-- A concrete DELIVERED order (empty cart, but any would do). -/
def deliveredOrder1 : Order :=
  { id := 3, customerId := 1, baristaId := some 1,
    items := [], status := .DELIVERED, notes := "", discount_applied := 0 }

/-- A concrete drink. -/
def latte1 : Drink := { name := "Latte", price := 35, size := .Medium }

/-- C3 counterexample: on a DELIVERED order, `add_item` succeeds and
changes the item list (the claim says every item mutation outside PENDING
fails with InvalidState and leaves the list unchanged); likewise
`clear_items` and `remove_item` run unguarded in any state. -/
theorem C3_counterexample :
    Order.add_item deliveredOrder1 latte1 2
      = Except.ok { deliveredOrder1 with items := [(latte1, 2)] }
    ∧ Order.remove_item { deliveredOrder1 with items := [(latte1, 2)] } latte1
      = deliveredOrder1
    ∧ Order.clear_items { deliveredOrder1 with items := [(latte1, 2)] }
      = deliveredOrder1 := by
  refine ⟨rfl, by decide, by decide⟩

/-- C3 amended: the item mutations of `Order` perform no status check at
all — `add_item` succeeds exactly when the quantity is positive, in every
status, and `remove_item` / `clear_items` always succeed, in every status;
the mutations commute with changing the status field. -/
theorem C3_amended_item_mutation (o : Order) (d : Drink) (q : ℤ) (st : OrderStatus) :
    ex_ok (o.add_item d q) = decide (0 < q)
    ∧ Order.add_item { o with status := st } d q
        = (o.add_item d q).map (fun o1 => { o1 with status := st })
    ∧ Order.remove_item { o with status := st } d
        = { o.remove_item d with status := st }
    ∧ Order.clear_items { o with status := st }
        = { o.clear_items with status := st } := by
  refine ⟨?_, ?_, rfl, rfl⟩
  · by_cases h : q ≤ 0
    · have h2 : decide (0 < q) = false := decide_eq_false (by omega)
      simp [Order.add_item, h, ex_ok, h2]
    · have h2 : decide (0 < q) = true := decide_eq_true (by omega)
      simp [Order.add_item, h, ex_ok, h2]
  · unfold Order.add_item
    by_cases h : q ≤ 0 <;> simp [h, Except.map]

/-- Source `int_trunc` agrees with the floor on non-negative arguments. -/
theorem int_trunc_eq_floor {q : ℚ} (h : 0 ≤ q) : int_trunc q = ⌊q⌋ := by
  simp [int_trunc, h]

/-- Closed form of a successful `mark_as_delivered`: the order goes to
DELIVERED (with the discount cache written twice), the customer earns the
points and gains the history entry, all totals being the freshly computed
`total_price`. -/
theorem mark_as_delivered_eq (o : Order) (c : Customer) (t : ℕ)
    (hst : o.status = .READY) :
    o.mark_as_delivered c t = .ok
      ( (({ o with status := .DELIVERED } : Order).read_discount c).read_discount
          (c.earn_loyalty_points (o.total_price c)),
        (c.earn_loyalty_points (o.total_price c)).add_to_history o.id t
          (o.total_price c) ) := by
  unfold Order.mark_as_delivered
  rw [if_neg (by simp [hst])]
  rfl

/-- C8: delivering a READY order sets DELIVERED, awards
floor(total/10) x tier-multiplier loyalty points (1/2/3 for
Regular/Premium/VIP), appends exactly one history entry (order id,
timestamp, total) to the owning customer, and does not touch the balance. -/
theorem C8_mark_delivered (o : Order) (c : Customer) (t : ℕ)
    (hst : o.status = .READY) (hnn : 0 ≤ o.total_price c) :
    ∃ o1 c1, o.mark_as_delivered c t = .ok (o1, c1)
    ∧ o1.status = .DELIVERED
    ∧ o1.items = o.items
    ∧ c1.balance = c.balance
    ∧ c1.ctype = c.ctype
    ∧ c1.loyalty_points
        = c.loyalty_points + ⌊o.total_price c / 10⌋ * loyalty_multiplier c.ctype
    ∧ c1.order_history = c.order_history ++ [⟨o.id, t, o.total_price c⟩]
    ∧ loyalty_multiplier .RegularCustomer = 1
    ∧ loyalty_multiplier .PremiumCustomer = 2
    ∧ loyalty_multiplier .VIPCustomer = 3 := by
  refine ⟨_, _, mark_as_delivered_eq o c t hst, rfl, rfl, rfl, rfl, ?_, rfl, rfl, rfl, rfl⟩
  have h10 : int_trunc (o.total_price c / 10) = ⌊o.total_price c / 10⌋ :=
    int_trunc_eq_floor (div_nonneg hnn (by norm_num))
  simp [Customer.add_to_history, Customer.earn_loyalty_points, h10]

/-- A concrete READY order (two Lattes) for the C8 witness. -/
def w8order : Order :=
  { id := 9, customerId := 3, baristaId := some 1,
    items := [(latte1, 2)], status := .READY, notes := "", discount_applied := 0 }

/-- A concrete VIP customer for the C8 witness. -/
def w8customer : Customer :=
  { id := 3, ctype := .VIPCustomer, name := "Can", email := "can@email.com",
    phone := "5556547890", balance := 944, loyalty_points := 0, order_history := [] }

/-- Witness for C8: a VIP order of two Lattes (subtotal 70, discount 14,
total 56) delivers, awarding floor(56/10) x 3 = 15 points. -/
theorem C8_mark_delivered_witness :
    w8order.status = .READY ∧ 0 ≤ w8order.total_price w8customer
    ∧ (∃ o1 c1, w8order.mark_as_delivered w8customer 7 = .ok (o1, c1)
      ∧ o1.status = .DELIVERED
      ∧ o1.items = w8order.items
      ∧ c1.balance = w8customer.balance
      ∧ c1.ctype = w8customer.ctype
      ∧ c1.loyalty_points
          = w8customer.loyalty_points
            + ⌊w8order.total_price w8customer / 10⌋ * loyalty_multiplier w8customer.ctype
      ∧ c1.order_history
          = w8customer.order_history ++ [⟨w8order.id, 7, w8order.total_price w8customer⟩]
      ∧ loyalty_multiplier .RegularCustomer = 1
      ∧ loyalty_multiplier .PremiumCustomer = 2
      ∧ loyalty_multiplier .VIPCustomer = 3) := by
  have h : (0:ℚ) ≤ w8order.total_price w8customer := by
    norm_num [Order.total_price, Order.calculate_discount, Order.calculate_subtotal,
      Customer.calculate_discount, Drink.get_final_price, w8order, w8customer, latte1,
      size_multiplier, discount_rate]
  exact ⟨rfl, h, C8_mark_delivered w8order w8customer 7 rfl h⟩

/-- Find the first element of `l` whose key is `k` (Python's identity
lookup loops `get_customer_by_*`, `get_order_by_id`, membership of the
pending queue). -/
def find_by {α : Type} (key : α → ℕ) : List α → ℕ → Option α
  | [], _ => none
  | a :: rest, k => if key a = k then some a else find_by key rest k

/-- Replace the first element of `l` whose key is `k` by `f` of it
(the model of mutating, in place, the unique object with that id). -/
def upd_by {α : Type} (key : α → ℕ) : List α → ℕ → (α → α) → List α
  | [], _, _ => []
  | a :: rest, k, f => if key a = k then f a :: rest else a :: upd_by key rest k f

/-- Source `CafeManager`'s mutable collections (cafe_manager.py lines
28-37); the menu and the name are read-only plumbing, shift clocks and the
cumulative revenue only matter to `close_cafe`, which no claim exercises
beyond persistence. -/
structure MState where
  isOpen : Bool
  customers : List Customer
  baristas : List Barista
  orders : List Order
  pending : List ℕ
  daily_revenue : ℚ
deriving Repr

/-- Source `CafeManager.get_order_by_id` (cafe_manager.py lines 311-316). -/
def MState.get_order_by_id (s : MState) (oid : ℕ) : Option Order :=
  find_by Order.id s.orders oid

/-- Lookup of the customer object an order's `customer` reference points
to (in Python the reference itself; here resolved by id). -/
def MState.get_customer (s : MState) (cid : ℕ) : Option Customer :=
  find_by Customer.id s.customers cid

/-- Lookup of a barista by id. -/
def MState.get_barista (s : MState) (bid : ℕ) : Option Barista :=
  find_by Barista.id s.baristas bid

/-- Source `CafeManager.submit_order` (cafe_manager.py lines 208-229):
closed café and empty orders are rejected; then `process_payment` debits
the customer (failure reported before any collection is touched); on
success the order is appended to the order log and the pending queue. -/
def submit_order (s : MState) (o : Order) : Option CafeError × MState :=
  if !s.isOpen then (some .cafeClosed, s)
  else if o.items.isEmpty || (o.get_item_count == 0) then (some .emptyOrder, s)
  else
    match s.get_customer o.customerId with
    | none => (some .notFound, s)
    | some c =>
      match o.process_payment c with
      | (false, _, _) => (some .paymentFailed, s)
      | (true, o1, c1) =>
        (none,
          { s with
              customers := upd_by Customer.id s.customers o.customerId (fun _ => c1),
              orders := s.orders ++ [o1],
              pending := s.pending ++ [o1.id] })

/-- Source `CafeManager.assign_order_to_barista` (cafe_manager.py lines
231-244): requires the order in the pending queue, then an available
barista; `take_order` binds the worker and starts preparation, and the
order leaves the queue. -/
def assign_order_to_barista (s : MState) (oid bid : ℕ) : Option CafeError × MState :=
  if !(s.pending.contains oid) then (some .notPending, s)
  else
    match s.get_barista bid with
    | none => (some .notFound, s)
    | some b =>
      if !b.is_available then (some .workerUnavailable, s)
      else
        match s.get_order_by_id oid with
        | none => (some .notFound, s)
        | some o =>
          match b.take_order o with
          | .error e => (some e, s)
          | .ok (b1, o1) =>
            (none,
              { s with
                  baristas := upd_by Barista.id s.baristas bid (fun _ => b1),
                  orders := upd_by Order.id s.orders oid (fun _ => o1),
                  pending := s.pending.erase oid })

/-- The loop of `CafeManager.auto_assign_orders` (cafe_manager.py lines
254-261) over the snapshot of available baristas: stop when the queue is
empty, otherwise assign the queue head to the next barista (a full
`assign_order_to_barista` call); an exception escapes the loop.  Returns
(error, final state, number of assignments performed). -/
def auto_assign_loop (s : MState) (bids : List ℕ) (count : ℕ) :
    Option CafeError × MState × ℕ :=
  match bids with
  | [] => (none, s, count)
  | bid :: rest =>
    match s.pending with
    | [] => (none, s, count)
    | oid :: _ =>
      match assign_order_to_barista s oid bid with
      | (some e, s1) => (some e, s1, count)
      | (none, s1) => auto_assign_loop s1 rest (count + 1)

/-- Source `CafeManager.auto_assign_orders` (cafe_manager.py lines 246-264):
snapshot the available baristas (in registration order) and run the loop;
with no available barista it only warns. -/
def auto_assign_orders (s : MState) : Option CafeError × MState × ℕ :=
  let avail := (s.baristas.filter Barista.is_available).map Barista.id
  if avail.isEmpty then (none, s, 0)
  else auto_assign_loop s avail 0

/-- Source `CafeManager.cancel_order` (cafe_manager.py lines 291-309):
unknown id fails; `Order.cancel` guards the status (mutating the order on
success); the refund `add_balance(total_price)` follows (its failure
escapes *after* the status mutation); finally the order leaves the
pending queue if present. -/
def cancel_order (s : MState) (oid : ℕ) : Option CafeError × MState :=
  match s.get_order_by_id oid with
  | none => (some .notFound, s)
  | some o =>
    match o.cancel with
    | .error e => (some e, s)
    | .ok o1 =>
      match s.get_customer o.customerId with
      | none => (some .notFound, { s with orders := upd_by Order.id s.orders oid (fun _ => o1) })
      | some c =>
        let r := o1.read_total c
        let s1 := { s with orders := upd_by Order.id s.orders oid (fun _ => r.2) }
        match c.add_balance r.1 with
        | .error e => (some e, s1)
        | .ok c1 =>
          (none,
            { s1 with
                customers := upd_by Customer.id s1.customers o.customerId (fun _ => c1),
                pending := s1.pending.erase oid })

/-- A successful lookup returns an element with the looked-up key. -/
theorem find_by_key {α : Type} (key : α → ℕ) (l : List α) (k : ℕ) (a : α)
    (h : find_by key l k = some a) : key a = k := by
  induction l with
  | nil => simp [find_by] at h
  | cons x rest ih =>
    by_cases hx : key x = k
    · simp [find_by, hx] at h
      subst h
      exact hx
    · simp [find_by, hx] at h
      exact ih h

/-- Updating the found element is visible to a subsequent lookup, provided
the update keeps the key. -/
theorem find_by_upd_self {α : Type} (key : α → ℕ) (l : List α) (k : ℕ)
    (f : α → α) (a : α) (h : find_by key l k = some a) (hk : key (f a) = k) :
    find_by key (upd_by key l k f) k = some (f a) := by
  induction l with
  | nil => simp [find_by] at h
  | cons x rest ih =>
    by_cases hx : key x = k
    · simp [find_by, hx] at h
      subst h
      simp [upd_by, find_by, hx, hk]
    · simp [find_by, upd_by, hx] at h ⊢
      exact ih h

/-- Updating key `k` does not disturb lookups of a different key `k'`,
provided the update maps key-`k` elements to key-`k` elements. -/
theorem find_by_upd_other {α : Type} (key : α → ℕ) (l : List α) (k k' : ℕ)
    (f : α → α) (hne : k ≠ k') (hf : ∀ x, key x = k → key (f x) = k) :
    find_by key (upd_by key l k f) k' = find_by key l k' := by
  induction l with
  | nil => simp [upd_by]
  | cons x rest ih =>
    by_cases hx : key x = k
    · have hfx : key (f x) = k := hf x hx
      simp [upd_by, find_by, hx, hfx, hne]
    · simp [upd_by, find_by, hx]
      by_cases hx' : key x = k' <;> simp [hx', ih]

/-- Closed form of `submit_order` when the café is open, the order is
non-empty and the balance suffices. -/
theorem submit_order_ok (s : MState) (o : Order) (c : Customer)
    (hc : s.get_customer o.customerId = some c)
    (hopen : s.isOpen = true) (hne : o.items ≠ [])
    (hcnt : o.get_item_count ≠ 0) (hbal : o.total_price c ≤ c.balance) :
    submit_order s o =
      (none,
        { s with
            customers := upd_by Customer.id s.customers o.customerId
              (fun _ => { c with balance := c.balance - o.total_price c }),
            orders := s.orders ++ [o.read_discount c],
            pending := s.pending ++ [o.id] }) := by
  have hemp : (o.items.isEmpty || (o.get_item_count == 0)) = false := by
    simp [List.isEmpty_iff, hne, hcnt]
  have hlt : ¬(c.balance < o.total_price c) := not_lt.mpr hbal
  simp [submit_order, hopen, hemp, hc, Order.process_payment, Order.read_total,
    Customer.deduct_balance, hlt, Order.read_discount]

/-- Closed forms of the three failure branches of `submit_order`: the
state (balance, order log, pending queue) is returned untouched. -/
theorem submit_order_fail (s : MState) (o : Order) (c : Customer)
    (hc : s.get_customer o.customerId = some c) :
    (s.isOpen = false → submit_order s o = (some .cafeClosed, s))
    ∧ (s.isOpen = true → (o.items = [] ∨ o.get_item_count = 0) →
        submit_order s o = (some .emptyOrder, s))
    ∧ (s.isOpen = true → o.items ≠ [] → o.get_item_count ≠ 0 →
        c.balance < o.total_price c →
        submit_order s o = (some .paymentFailed, s)) := by
  refine ⟨?_, ?_, ?_⟩
  · intro hopen
    simp [submit_order, hopen]
  · intro hopen hz
    have hemp : (o.items.isEmpty || (o.get_item_count == 0)) = true := by
      rcases hz with hz | hz <;> simp [List.isEmpty_iff, hz]
    simp [submit_order, hopen, hemp]
  · intro hopen hne hcnt hlt
    have hemp : (o.items.isEmpty || (o.get_item_count == 0)) = false := by
      simp [List.isEmpty_iff, hne, hcnt]
    simp [submit_order, hopen, hemp, hc, Order.process_payment, Order.read_total,
      Customer.deduct_balance, hlt]

/-- C4: `submit_order` fails — leaving the whole state (customer balance,
order log, pending queue) unchanged — when the café is closed, the order
is empty, or the balance is below `total_price` (insufficient funds);
otherwise it debits the customer by exactly `total_price` and appends the
order to both the order log and the pending queue. -/
theorem C4_submit_order (s : MState) (o : Order) (c : Customer)
    (hc : s.get_customer o.customerId = some c) :
    (s.isOpen = false → submit_order s o = (some .cafeClosed, s))
    ∧ (s.isOpen = true → (o.items = [] ∨ o.get_item_count = 0) →
        submit_order s o = (some .emptyOrder, s))
    ∧ (s.isOpen = true → o.items ≠ [] → o.get_item_count ≠ 0 →
        c.balance < o.total_price c →
        submit_order s o = (some .paymentFailed, s))
    ∧ (s.isOpen = true → o.items ≠ [] → o.get_item_count ≠ 0 →
        o.total_price c ≤ c.balance →
        (submit_order s o).1 = none
        ∧ (submit_order s o).2.pending = s.pending ++ [o.id]
        ∧ (submit_order s o).2.orders = s.orders ++ [o.read_discount c]
        ∧ (submit_order s o).2.get_customer o.customerId
            = some { c with balance := c.balance - o.total_price c }) := by
  obtain ⟨h1, h2, h3⟩ := submit_order_fail s o c hc
  refine ⟨h1, h2, h3, ?_⟩
  intro hopen hne hcnt hbal
  rw [submit_order_ok s o c hc hopen hne hcnt hbal]
  refine ⟨rfl, rfl, rfl, ?_⟩
  have hkey : c.id = o.customerId := find_by_key Customer.id s.customers _ c hc
  exact find_by_upd_self Customer.id s.customers o.customerId _ c hc hkey

/-- Closed form of a successful assignment: the barista takes the order
(current order bound, at most one by construction of the field), the order
starts preparation, and the order leaves the pending queue. -/
theorem assign_ok (s : MState) (oid bid : ℕ) (b : Barista) (o : Order)
    (hmem : oid ∈ s.pending)
    (hb : s.get_barista bid = some b) (hav : b.is_available = true)
    (ho : s.get_order_by_id oid = some o) (hst : o.status = .PENDING) :
    assign_order_to_barista s oid bid =
      (none,
        { s with
            baristas := upd_by Barista.id s.baristas bid
              (fun _ => { b with current_order := some o.id }),
            orders := upd_by Order.id s.orders oid
              (fun _ => { o with baristaId := some b.id, status := .PREPARING }),
            pending := s.pending.erase oid }) := by
  have hav' := hav
  simp [Barista.is_available, Option.isNone_iff_eq_none] at hav'
  obtain ⟨hduty, hcur⟩ := hav'
  simp [assign_order_to_barista, hmem, hb, hav, ho, Barista.take_order, hduty, hcur,
    hst, Order.start_preparation]

/-- An assignment whose order is not pending fails with the state
untouched. -/
theorem assign_not_pending (s : MState) (oid bid : ℕ) (hmem : oid ∉ s.pending) :
    assign_order_to_barista s oid bid = (some .notPending, s) := by
  simp [assign_order_to_barista, hmem]

/-- An assignment onto a busy or off-duty barista fails with the state
untouched. -/
theorem assign_unavailable (s : MState) (oid bid : ℕ) (b : Barista)
    (hmem : oid ∈ s.pending) (hb : s.get_barista bid = some b)
    (hav : b.is_available = false) :
    assign_order_to_barista s oid bid = (some .workerUnavailable, s) := by
  simp [assign_order_to_barista, hmem, hb, hav]

/-- C6: a worker holds at most one `current_order` (it is a single
optional field, and `take_order` refuses a busy worker); `assign` requires
the order to be in the pending queue and the worker to be available, then
binds `current_order`, moves the order to PREPARING and removes it from
the queue; assignment onto a busy/off-duty worker fails with
WorkerUnavailable and an order not in the queue fails with NotPending, the
full state (queue and workers included) being returned untouched. -/
theorem C6_assign_invariants (s : MState) (oid bid : ℕ) :
    (oid ∉ s.pending → assign_order_to_barista s oid bid = (some .notPending, s))
    ∧ (∀ b, oid ∈ s.pending → s.get_barista bid = some b → b.is_available = false →
        assign_order_to_barista s oid bid = (some .workerUnavailable, s))
    ∧ (∀ b o, oid ∈ s.pending → s.get_barista bid = some b → b.is_available = true →
        s.get_order_by_id oid = some o → o.status = .PENDING →
        assign_order_to_barista s oid bid =
          (none,
            { s with
                baristas := upd_by Barista.id s.baristas bid
                  (fun _ => { b with current_order := some o.id }),
                orders := upd_by Order.id s.orders oid
                  (fun _ => { o with baristaId := some b.id, status := .PREPARING }),
                pending := s.pending.erase oid })) :=
  ⟨assign_not_pending s oid bid,
   fun b hmem hb hav => assign_unavailable s oid bid b hmem hb hav,
   fun b o hmem hb hav ho hst => assign_ok s oid bid b o hmem hb hav ho hst⟩

/-- A concrete pending order for the C6 witness. -/
def w6order : Order :=
  { id := 6, customerId := 1, baristaId := none,
    items := [(latte1, 1)], status := .PENDING, notes := "", discount_applied := 0 }

/-- A concrete state with order 6 pending and barista 1 free for the C6
witness. -/
def w6state : MState :=
  { isOpen := true, customers := [w8customer], baristas := [freeBarista1],
    orders := [w6order], pending := [6], daily_revenue := 0 }

/-- Witness for C6: assigning pending order 6 to the free on-duty barista
succeeds and produces exactly the advertised state. -/
theorem C6_assign_invariants_witness :
    (6 : ℕ) ∈ w6state.pending
    ∧ w6state.get_barista 1 = some freeBarista1
    ∧ freeBarista1.is_available = true
    ∧ w6state.get_order_by_id 6 = some w6order
    ∧ w6order.status = .PENDING
    ∧ assign_order_to_barista w6state 6 1 =
        (none,
          { w6state with
              baristas := upd_by Barista.id w6state.baristas 1
                (fun _ => { freeBarista1 with current_order := some w6order.id }),
              orders := upd_by Order.id w6state.orders 6
                (fun _ => { w6order with
                              baristaId := some freeBarista1.id, status := .PREPARING }),
              pending := w6state.pending.erase 6 }) := by
  refine ⟨by simp [w6state], rfl, rfl, rfl, rfl, ?_⟩
  exact (C6_assign_invariants w6state 6 1).2.2 freeBarista1 w6order
    (by simp [w6state]) rfl rfl rfl rfl

/-- A concrete Regular customer with balance 10 (the spec's
insufficient-funds scenario). -/
def w4customer : Customer :=
  { id := 1, ctype := .RegularCustomer, name := "Ali", email := "ali@email.com",
    phone := "5551234567", balance := 10, loyalty_points := 0, order_history := [] }

/-- An open café whose only customer is `w4customer`. -/
def w4state : MState :=
  { isOpen := true, customers := [w4customer], baristas := [], orders := [],
    pending := [], daily_revenue := 0 }

/-- A pending order of one 56-unit item for customer 1. -/
def w4order : Order :=
  { id := 4, customerId := 1, baristaId := none,
    items := [({ name := "Cheesecake", price := 56, size := .Medium }, 1)],
    status := .PENDING, notes := "", discount_applied := 0 }

/-- Witness for C4: the spec scenario — Regular customer with balance 10
submits an order totalling 56; submission fails with the payment error and
the state is returned untouched (balance 10, nothing enqueued). -/
theorem C4_submit_order_witness :
    w4state.get_customer w4order.customerId = some w4customer
    ∧ w4state.isOpen = true ∧ w4order.items ≠ [] ∧ w4order.get_item_count ≠ 0
    ∧ w4customer.balance < w4order.total_price w4customer
    ∧ submit_order w4state w4order = (some .paymentFailed, w4state) := by
  have htot : w4order.total_price w4customer = 56 := by
    norm_num [Order.total_price, Order.calculate_discount, Order.calculate_subtotal,
      Customer.calculate_discount, w4order, w4customer, Drink.get_final_price,
      size_multiplier, discount_rate]
  have hlt : w4customer.balance < w4order.total_price w4customer := by
    rw [htot]
    norm_num [w4customer]
  have hne : w4order.items ≠ [] := by simp [w4order]
  have hcnt : w4order.get_item_count ≠ 0 := by
    simp [Order.get_item_count, w4order]
  exact ⟨rfl, rfl, hne, hcnt, hlt,
    (C4_submit_order w4state w4order w4customer rfl).2.2.1 rfl hne hcnt hlt⟩

/-- An unknown order id makes `cancel_order` fail with everything
untouched. -/
theorem cancel_order_not_found (s : MState) (oid : ℕ)
    (h : s.get_order_by_id oid = none) :
    cancel_order s oid = (some .notFound, s) := by
  simp [cancel_order, h]

/-- Cancelling a DELIVERED or CANCELLED order fails with everything
(balance included) untouched. -/
theorem cancel_order_terminal (s : MState) (oid : ℕ) (o : Order)
    (h : s.get_order_by_id oid = some o)
    (hst : o.status = .DELIVERED ∨ o.status = .CANCELLED) :
    cancel_order s oid = (some .invalidTransition, s) := by
  have hcan : o.cancel = Except.error CafeError.invalidTransition := by
    unfold Order.cancel
    rw [if_pos hst]
  simp [cancel_order, h, hcan]

/-- Closed form of a successful `cancel_order` (positive total): the order
goes to CANCELLED (cache rewritten by the `total_price` read), the
customer is refunded exactly `total_price`, and the order leaves the
pending queue if present; the barista list is untouched. -/
theorem cancel_order_ok (s : MState) (oid : ℕ) (o : Order) (c : Customer)
    (h : s.get_order_by_id oid = some o)
    (hst : ¬(o.status = .DELIVERED ∨ o.status = .CANCELLED))
    (hc : s.get_customer o.customerId = some c)
    (hpos : 0 < o.total_price c) :
    cancel_order s oid =
      (none,
        { s with
            customers := upd_by Customer.id s.customers o.customerId
              (fun _ => { c with balance := c.balance + o.total_price c }),
            orders := upd_by Order.id s.orders oid
              (fun _ => Order.read_discount { o with status := .CANCELLED } c),
            pending := s.pending.erase oid }) := by
  have hcan : o.cancel = Except.ok { o with status := .CANCELLED } := by
    unfold Order.cancel
    rw [if_neg hst]
  have htp : Order.total_price { o with status := .CANCELLED } c = o.total_price c := rfl
  have hnle : ¬(o.total_price c ≤ 0) := not_le.mpr hpos
  simp [cancel_order, h, hcan, hc, Order.read_total, htp, Customer.add_balance, hnle]

/-- Closed form of the refund-validation failure of `cancel_order` on a
non-positive total: the status mutation (and discount-cache write) has
already happened, but the balance and the pending queue are untouched and
the command raises. -/
theorem cancel_order_zero (s : MState) (oid : ℕ) (o : Order) (c : Customer)
    (h : s.get_order_by_id oid = some o)
    (hst : ¬(o.status = .DELIVERED ∨ o.status = .CANCELLED))
    (hc : s.get_customer o.customerId = some c)
    (hle : o.total_price c ≤ 0) :
    cancel_order s oid =
      (some .validationError,
        { s with
            orders := upd_by Order.id s.orders oid
              (fun _ => Order.read_discount { o with status := .CANCELLED } c) }) := by
  have hcan : o.cancel = Except.ok { o with status := .CANCELLED } := by
    unfold Order.cancel
    rw [if_neg hst]
  have htp : Order.total_price { o with status := .CANCELLED } c = o.total_price c := rfl
  simp [cancel_order, h, hcan, hc, Order.read_total, htp, Customer.add_balance, hle]

/-- A zero-priced drink: the `Drink` constructor validates nothing (only
the price *setter* rejects negatives, and 0 passes even there). -/
def freeDrink : Drink := { name := "Water", price := 0, size := .Medium }

/-- A pending order whose single line is free, so `total_price = 0`. -/
def w5order : Order :=
  { id := 5, customerId := 1, baristaId := none, items := [(freeDrink, 1)],
    status := .PENDING, notes := "", discount_applied := 0 }

/-- A state with the zero-total order pending. -/
def w5state : MState :=
  { isOpen := true, customers := [w4customer], baristas := [], orders := [w5order],
    pending := [5], daily_revenue := 0 }

/-- C5 counterexample: cancelling a PENDING order of total 0 does *not*
behave as claimed — `add_balance(0)` raises its positivity validation, so
`cancel_order` fails after the status write: the order is left CANCELLED
yet still sits in the pending queue, and no refund happens (the balance is
untouched only by accident of the amount being 0, but the claimed success
and queue removal do not occur). -/
theorem C5_counterexample :
    w5order.status = .PENDING
    ∧ w5state.get_order_by_id 5 = some w5order
    ∧ (cancel_order w5state 5).1 = some .validationError
    ∧ (cancel_order w5state 5).2.pending = [5]
    ∧ ((cancel_order w5state 5).2.get_order_by_id 5).map Order.status
        = some .CANCELLED
    ∧ (cancel_order w5state 5).2.get_customer 1 = some w4customer := by
  have h0 : w5order.total_price w4customer = 0 := by
    norm_num [Order.total_price, Order.calculate_discount, Order.calculate_subtotal,
      Customer.calculate_discount, w5order, w4customer, freeDrink,
      Drink.get_final_price, size_multiplier, discount_rate]
  have hz := cancel_order_zero w5state 5 w5order w4customer rfl
    (by simp [w5order]) rfl (le_of_eq h0)
  rw [hz]
  refine ⟨rfl, rfl, rfl, rfl, ?_, rfl⟩
  simp [MState.get_order_by_id, w5state, upd_by, find_by, w5order, Order.read_discount]

/-- C5 amended: `cancel_order` behaves as claimed *provided the order's
total is positive* (always the case for menu-priced drinks): unknown id
fails with NotFound; DELIVERED/CANCELLED orders fail with balance
untouched; a PENDING or PREPARING order is set to CANCELLED, exactly
`total_price` is refunded, and the order is removed from the pending queue
if present.  For a non-positive total the refund validation raises after
the status write, leaving balance and queue untouched. -/
theorem C5_amended_cancel_order (s : MState) (oid : ℕ) :
    (s.get_order_by_id oid = none → cancel_order s oid = (some .notFound, s))
    ∧ (∀ o, s.get_order_by_id oid = some o →
        (o.status = .DELIVERED ∨ o.status = .CANCELLED) →
        cancel_order s oid = (some .invalidTransition, s))
    ∧ (∀ o c, s.get_order_by_id oid = some o →
        (o.status = .PENDING ∨ o.status = .PREPARING) →
        s.get_customer o.customerId = some c → 0 < o.total_price c →
        cancel_order s oid =
          (none,
            { s with
                customers := upd_by Customer.id s.customers o.customerId
                  (fun _ => { c with balance := c.balance + o.total_price c }),
                orders := upd_by Order.id s.orders oid
                  (fun _ => Order.read_discount { o with status := .CANCELLED } c),
                pending := s.pending.erase oid }))
    ∧ (∀ o c, s.get_order_by_id oid = some o →
        (o.status = .PENDING ∨ o.status = .PREPARING) →
        s.get_customer o.customerId = some c → o.total_price c ≤ 0 →
        cancel_order s oid =
          (some .validationError,
            { s with
                orders := upd_by Order.id s.orders oid
                  (fun _ => Order.read_discount { o with status := .CANCELLED } c) })) := by
  refine ⟨cancel_order_not_found s oid, fun o h hst => cancel_order_terminal s oid o h hst,
    ?_, ?_⟩
  · intro o c h hst hc hpos
    exact cancel_order_ok s oid o c h (by rcases hst with h2 | h2 <;> simp [h2]) hc hpos
  · intro o c h hst hc hle
    exact cancel_order_zero s oid o c h (by rcases hst with h2 | h2 <;> simp [h2]) hc hle

/-- A pending order of two Lattes (total 56) awaiting cancellation. -/
def w5border : Order :=
  { id := 7, customerId := 3, baristaId := none, items := [(latte1, 2)],
    status := .PENDING, notes := "", discount_applied := 0 }

/-- A state with the order pending for VIP customer 3. -/
def w5bstate : MState :=
  { isOpen := true, customers := [w8customer], baristas := [], orders := [w5border],
    pending := [7], daily_revenue := 0 }

/-- Witness for the amended C5: cancelling pending order 7 (VIP total 56)
succeeds, refunds 56, sets CANCELLED and empties the queue. -/
theorem C5_amended_cancel_order_witness :
    w5bstate.get_order_by_id 7 = some w5border
    ∧ (w5border.status = .PENDING ∨ w5border.status = .PREPARING)
    ∧ w5bstate.get_customer w5border.customerId = some w8customer
    ∧ 0 < w5border.total_price w8customer
    ∧ cancel_order w5bstate 7 =
        (none,
          { w5bstate with
              customers := upd_by Customer.id w5bstate.customers w5border.customerId
                (fun _ => { w8customer with
                    balance := w8customer.balance + w5border.total_price w8customer }),
              orders := upd_by Order.id w5bstate.orders 7
                (fun _ => Order.read_discount { w5border with status := .CANCELLED }
                  w8customer),
              pending := w5bstate.pending.erase 7 }) := by
  have hpos : 0 < w5border.total_price w8customer := by
    norm_num [Order.total_price, Order.calculate_discount, Order.calculate_subtotal,
      Customer.calculate_discount, w5border, w8customer, latte1,
      Drink.get_final_price, size_multiplier, discount_rate]
  exact ⟨rfl, Or.inl rfl, rfl, hpos,
    (C5_amended_cancel_order w5bstate 7).2.2.1 w5border w8customer rfl
      (Or.inl rfl) rfl hpos⟩

/-- C10: cancelling a PREPARING order mutates only the order's status
(plus its discount cache), the owning customer's balance, and the pending
queue; the barista list is bit-for-bit unchanged, so the assigned worker
still holds `current_order = some oid` pointing at the now-CANCELLED
order and `is_available` stays false; only a separate
`cancel_current_order` clears the field (after which availability is again
just the on-duty flag). -/
theorem C10_cancel_preparing_frame (s : MState) (oid : ℕ) (o : Order) (c : Customer)
    (bid : ℕ) (b : Barista)
    (h : s.get_order_by_id oid = some o) (hst : o.status = .PREPARING)
    (hc : s.get_customer o.customerId = some c) (hpos : 0 < o.total_price c)
    (hb : s.get_barista bid = some b) (hcur : b.current_order = some oid) :
    (cancel_order s oid).1 = none
    ∧ (cancel_order s oid).2.baristas = s.baristas
    ∧ (cancel_order s oid).2.get_barista bid = some b
    ∧ b.is_available = false
    ∧ ((cancel_order s oid).2.get_order_by_id oid).map Order.status = some .CANCELLED
    ∧ (cancel_order s oid).2.get_customer o.customerId
        = some { c with balance := c.balance + o.total_price c }
    ∧ (cancel_order s oid).2.pending = s.pending.erase oid
    ∧ (cancel_order s oid).2.isOpen = s.isOpen
    ∧ (cancel_order s oid).2.daily_revenue = s.daily_revenue
    ∧ b.cancel_current_order = Except.ok { b with current_order := none }
    ∧ Barista.is_available { b with current_order := none } = b.is_on_duty := by
  have hterm : ¬(o.status = .DELIVERED ∨ o.status = .CANCELLED) := by simp [hst]
  have hido : o.id = oid := find_by_key Order.id s.orders oid o h
  have hidc : c.id = o.customerId := find_by_key Customer.id s.customers o.customerId c hc
  rw [cancel_order_ok s oid o c h hterm hc hpos]
  refine ⟨rfl, rfl, hb, ?_, ?_, ?_, rfl, rfl, rfl, ?_, ?_⟩
  · simp [Barista.is_available, hcur]
  · have hfind := find_by_upd_self Order.id s.orders oid
      (fun _ => Order.read_discount { o with status := .CANCELLED } c) o h hido
    show (find_by Order.id (upd_by Order.id s.orders oid _) oid).map Order.status = _
    rw [hfind]
    rfl
  · exact find_by_upd_self Customer.id s.customers o.customerId
      (fun _ => { c with balance := c.balance + o.total_price c }) c hc hidc
  · simp [Barista.cancel_current_order, hcur]
  · simp [Barista.is_available]

/-- A busy barista preparing order 8 for the C10 witness. -/
def w10barista : Barista :=
  { id := 2, name := "Mehmet", email := "mehmet@cafe.com", experience_years := 3,
    hourly_rate := 55, orders_completed := [], current_order := some 8,
    total_earnings := 0, is_on_duty := true }

/-- PREPARING order 8 (two Lattes, VIP total 56) for the C10 witness. -/
def w10order : Order :=
  { id := 8, customerId := 3, baristaId := some 2, items := [(latte1, 2)],
    status := .PREPARING, notes := "", discount_applied := 0 }

/-- A state with order 8 in preparation by barista 2 for the C10 witness. -/
def w10state : MState :=
  { isOpen := true, customers := [w8customer], baristas := [w10barista],
    orders := [w10order], pending := [], daily_revenue := 0 }

/-- Witness for C10: cancelling PREPARING order 8 leaves barista 2 holding
it and unavailable. -/
theorem C10_cancel_preparing_frame_witness :
    w10state.get_order_by_id 8 = some w10order
    ∧ w10order.status = .PREPARING
    ∧ w10state.get_customer w10order.customerId = some w8customer
    ∧ 0 < w10order.total_price w8customer
    ∧ w10state.get_barista 2 = some w10barista
    ∧ w10barista.current_order = some 8
    ∧ (cancel_order w10state 8).1 = none
    ∧ (cancel_order w10state 8).2.baristas = w10state.baristas
    ∧ (cancel_order w10state 8).2.get_barista 2 = some w10barista
    ∧ w10barista.is_available = false
    ∧ ((cancel_order w10state 8).2.get_order_by_id 8).map Order.status
        = some .CANCELLED := by
  have hpos : 0 < w10order.total_price w8customer := by
    norm_num [Order.total_price, Order.calculate_discount, Order.calculate_subtotal,
      Customer.calculate_discount, w10order, w8customer, latte1,
      Drink.get_final_price, size_multiplier, discount_rate]
  have hmain := C10_cancel_preparing_frame w10state 8 w10order w8customer 2 w10barista
    rfl rfl rfl hpos rfl rfl
  exact ⟨rfl, rfl, rfl, hpos, rfl, rfl, hmain.1, hmain.2.1, hmain.2.2.1,
    hmain.2.2.2.1, hmain.2.2.2.2.1⟩

/-- The state produced by a successful assignment (abbreviation for the
record in `assign_ok`). -/
def assigned_state (s : MState) (oid bid : ℕ) (b : Barista) (o : Order) : MState :=
  { s with
      baristas := upd_by Barista.id s.baristas bid
        (fun _ => { b with current_order := some o.id }),
      orders := upd_by Order.id s.orders oid
        (fun _ => { o with baristaId := some b.id, status := .PREPARING }),
      pending := s.pending.erase oid }

/-- Restatement of `assign_ok` through `assigned_state`. -/
theorem assign_ok_state (s : MState) (oid bid : ℕ) (b : Barista) (o : Order)
    (hmem : oid ∈ s.pending)
    (hb : s.get_barista bid = some b) (hav : b.is_available = true)
    (ho : s.get_order_by_id oid = some o) (hst : o.status = .PENDING) :
    assign_order_to_barista s oid bid = (none, assigned_state s oid bid b o) :=
  assign_ok s oid bid b o hmem hb hav ho hst

/-- With pairwise-distinct keys, the first-match lookup of a member's key
returns exactly that member. -/
theorem find_by_of_nodup {α : Type} (key : α → ℕ) (l : List α) (a : α)
    (ha : a ∈ l) (hnd : (l.map key).Nodup) : find_by key l (key a) = some a := by
  induction l with
  | nil => cases ha
  | cons x rest ih =>
    rcases List.mem_cons.mp ha with rfl | ha2
    · simp [find_by]
    · have hx : key x ≠ key a := by
        intro he
        have hmem : key a ∈ rest.map key := List.mem_map_of_mem key ha2
        rw [← he] at hmem
        exact (List.nodup_cons.mp (by simpa using hnd)).1 hmem
      simp only [find_by, if_neg hx]
      exact ih ha2 (List.nodup_cons.mp (by simpa using hnd)).2

/-- Full specification of the auto-assign loop: under the queue/worker
invariants (each queued order exists and is PENDING, each snapshot barista
exists and is available, no duplicate ids), the loop never raises,
performs exactly `min #queue #snapshot` assignments, drops exactly the
assigned prefix of the FIFO queue, pairs the i-th queued order with the
i-th snapshot barista, and touches no other barista or order. -/
theorem auto_assign_loop_spec (bids : List ℕ) : ∀ (s : MState) (count : ℕ),
    bids.Nodup → s.pending.Nodup →
    (∀ oid ∈ s.pending, ∃ o, s.get_order_by_id oid = some o ∧ o.status = .PENDING) →
    (∀ bid ∈ bids, ∃ b, s.get_barista bid = some b ∧ b.is_available = true) →
    (auto_assign_loop s bids count).1 = none
    ∧ (auto_assign_loop s bids count).2.2 = count + min s.pending.length bids.length
    ∧ (auto_assign_loop s bids count).2.1.pending = s.pending.drop bids.length
    ∧ (∀ x, x ∉ bids →
        (auto_assign_loop s bids count).2.1.get_barista x = s.get_barista x)
    ∧ (∀ y, y ∉ s.pending.take bids.length →
        (auto_assign_loop s bids count).2.1.get_order_by_id y = s.get_order_by_id y)
    ∧ (∀ i, i < min s.pending.length bids.length →
        (∃ b, (auto_assign_loop s bids count).2.1.get_barista (bids.getD i 0) = some b
          ∧ b.current_order = some (s.pending.getD i 0))
        ∧ (∃ o, (auto_assign_loop s bids count).2.1.get_order_by_id (s.pending.getD i 0)
              = some o
          ∧ o.status = .PREPARING ∧ o.baristaId = some (bids.getD i 0))) := by
  induction bids with
  | nil =>
    intro s count _ _ _ _
    refine ⟨rfl, by simp [auto_assign_loop], by simp [auto_assign_loop],
      fun x _ => rfl, fun y _ => rfl, fun i hi => by simp at hi⟩
  | cons bid0 rest ih =>
    intro s count hbn hqn hq hb
    obtain ⟨hb0notin, hbrest⟩ := List.nodup_cons.mp hbn
    cases hp : s.pending with
    | nil =>
      have hloop : auto_assign_loop s (bid0 :: rest) count = (none, s, count) := by
        simp [auto_assign_loop, hp]
      rw [hloop]
      refine ⟨rfl, by simp, by simp [hp], fun x _ => rfl, fun y _ => rfl,
        fun i hi => by simp at hi⟩
    | cons p0 ptail =>
      obtain ⟨hp0nin, hptnd⟩ := List.nodup_cons.mp (hp ▸ hqn)
      obtain ⟨b0, hb0, hb0av⟩ := hb bid0 (List.mem_cons_self _ _)
      have hp0mem : p0 ∈ s.pending := by
        rw [hp]
        exact List.mem_cons_self _ _
      obtain ⟨o0, ho0, ho0st⟩ := hq p0 hp0mem
      have key0 : o0.id = p0 := find_by_key Order.id s.orders p0 o0 ho0
      have keyb : b0.id = bid0 := find_by_key Barista.id s.baristas bid0 b0 hb0
      have hassign := assign_ok_state s p0 bid0 b0 o0 hp0mem hb0 hb0av ho0 ho0st
      have hs1p : (assigned_state s p0 bid0 b0 o0).pending = ptail := by
        show s.pending.erase p0 = ptail
        rw [hp]
        exact List.erase_cons_head _ _
      have hbother : ∀ x, x ≠ bid0 →
          (assigned_state s p0 bid0 b0 o0).get_barista x = s.get_barista x :=
        fun x hx =>
          find_by_upd_other Barista.id s.baristas bid0 x _ (Ne.symm hx)
            (fun _ _ => keyb)
      have hbself : (assigned_state s p0 bid0 b0 o0).get_barista bid0
          = some { b0 with current_order := some o0.id } :=
        find_by_upd_self Barista.id s.baristas bid0 _ b0 hb0 keyb
      have hoother : ∀ y, y ≠ p0 →
          (assigned_state s p0 bid0 b0 o0).get_order_by_id y = s.get_order_by_id y :=
        fun y hy =>
          find_by_upd_other Order.id s.orders p0 y _ (Ne.symm hy)
            (fun _ _ => key0)
      have hoself : (assigned_state s p0 bid0 b0 o0).get_order_by_id p0
          = some { o0 with baristaId := some b0.id, status := .PREPARING } :=
        find_by_upd_self Order.id s.orders p0 _ o0 ho0 key0
      have hqn1 : (assigned_state s p0 bid0 b0 o0).pending.Nodup := by
        rw [hs1p]
        exact hptnd
      have hq1 : ∀ oid ∈ (assigned_state s p0 bid0 b0 o0).pending,
          ∃ o, (assigned_state s p0 bid0 b0 o0).get_order_by_id oid = some o
            ∧ o.status = .PENDING := by
        intro oid hm
        rw [hs1p] at hm
        have hne : oid ≠ p0 := fun he => hp0nin (he ▸ hm)
        rw [hoother oid hne]
        exact hq oid (by rw [hp]; exact List.mem_cons_of_mem _ hm)
      have hb1 : ∀ bid ∈ rest,
          ∃ b, (assigned_state s p0 bid0 b0 o0).get_barista bid = some b
            ∧ b.is_available = true := by
        intro bid hm
        have hne : bid ≠ bid0 := fun he => hb0notin (he ▸ hm)
        rw [hbother bid hne]
        exact hb bid (List.mem_cons_of_mem _ hm)
      have hstep : auto_assign_loop s (bid0 :: rest) count
          = auto_assign_loop (assigned_state s p0 bid0 b0 o0) rest (count + 1) := by
        simp [auto_assign_loop, hp, hassign]
      obtain ⟨ih1, ih2, ih3, ih4, ih5, ih6⟩ :=
        ih (assigned_state s p0 bid0 b0 o0) (count + 1) hbrest hqn1 hq1 hb1
      refine ⟨?_, ?_, ?_, ?_, ?_, ?_⟩
      · rw [hstep]
        exact ih1
      · rw [hstep, ih2, hs1p]
        simp only [List.length_cons]
        omega
      · rw [hstep, ih3, hs1p]
        simp [List.drop_succ_cons]
      · intro x hx
        rw [hstep, ih4 x (fun hm => hx (List.mem_cons_of_mem _ hm))]
        exact hbother x (fun he => hx (he ▸ List.mem_cons_self _ _))
      · intro y hy
        rw [List.length_cons, List.take_succ_cons] at hy
        have hyne : y ≠ p0 := fun he => hy (he ▸ List.mem_cons_self _ _)
        have hyt : y ∉ ptail.take rest.length :=
          fun hm => hy (List.mem_cons_of_mem _ hm)
        rw [hstep, ih5 y (by rw [hs1p]; exact hyt)]
        exact hoother y hyne
      · intro i hi
        simp only [List.length_cons] at hi
        cases i with
        | zero =>
          constructor
          · refine ⟨{ b0 with current_order := some o0.id }, ?_, ?_⟩
            · rw [hstep, List.getD_cons_zero, ih4 bid0 hb0notin]
              exact hbself
            · simp [key0]
          · refine ⟨{ o0 with baristaId := some b0.id, status := .PREPARING }, ?_, rfl, ?_⟩
            · have hp0t : p0 ∉ ptail.take rest.length :=
                fun hm => hp0nin ((List.take_sublist _ _).subset hm)
              rw [hstep, List.getD_cons_zero, ih5 p0 (by rw [hs1p]; exact hp0t)]
              exact hoself
            · simp [keyb]
        | succ i =>
          have hi1 : i < min (assigned_state s p0 bid0 b0 o0).pending.length rest.length := by
            rw [hs1p]
            omega
          obtain ⟨⟨b2, hb2, hb2c⟩, ⟨o2, ho2, ho2s, ho2b⟩⟩ := ih6 i hi1
          rw [hs1p] at hb2c ho2
          constructor
          · refine ⟨b2, ?_, ?_⟩
            · rw [hstep, List.getD_cons_succ]
              exact hb2
            · rw [List.getD_cons_succ]
              exact hb2c
          · refine ⟨o2, ?_, ho2s, ?_⟩
            · rw [hstep, List.getD_cons_succ]
              exact ho2
            · rw [List.getD_cons_succ]
              exact ho2b

/-- The snapshot of available-barista ids is duplicate-free whenever the
barista ids are. -/
theorem avail_nodup (s : MState) (hids : (s.baristas.map Barista.id).Nodup) :
    ((s.baristas.filter Barista.is_available).map Barista.id).Nodup :=
  hids.sublist ((s.baristas.filter_sublist).map Barista.id)

/-- Each id in the availability snapshot looks up an available barista
(first-match lookup is unambiguous under duplicate-free ids). -/
theorem avail_found (s : MState) (hids : (s.baristas.map Barista.id).Nodup) :
    ∀ bid ∈ (s.baristas.filter Barista.is_available).map Barista.id,
      ∃ b, s.get_barista bid = some b ∧ b.is_available = true := by
  intro bid hm
  obtain ⟨b, hbmem, rfl⟩ := List.mem_map.mp hm
  obtain ⟨hbl, hav⟩ := List.mem_filter.mp hbmem
  exact ⟨b, find_by_of_nodup Barista.id s.baristas b hbl hids, hav⟩

/-- C7: with N pending orders and M available workers (snapshot taken in
registration order), `auto_assign_orders` raises nothing, performs exactly
min(N, M) assignments (each a full `assign_order_to_barista` call), pairs
the i-th order of the strict-FIFO queue with the i-th available worker,
and leaves exactly the unassigned tail of the queue pending.  Hypotheses:
ids are duplicate-free and every queued order exists and is PENDING (the
invariants of normal operation). -/
theorem C7_auto_assign_orders (s : MState)
    (hqn : s.pending.Nodup)
    (hids : (s.baristas.map Barista.id).Nodup)
    (hq : ∀ oid ∈ s.pending, ∃ o, s.get_order_by_id oid = some o ∧ o.status = .PENDING) :
    (auto_assign_orders s).1 = none
    ∧ (auto_assign_orders s).2.2
        = min s.pending.length
            ((s.baristas.filter Barista.is_available).map Barista.id).length
    ∧ (auto_assign_orders s).2.1.pending
        = s.pending.drop ((s.baristas.filter Barista.is_available).map Barista.id).length
    ∧ (∀ i, i < min s.pending.length
          ((s.baristas.filter Barista.is_available).map Barista.id).length →
        (∃ b, (auto_assign_orders s).2.1.get_barista
              (((s.baristas.filter Barista.is_available).map Barista.id).getD i 0)
              = some b
          ∧ b.current_order = some (s.pending.getD i 0))
        ∧ (∃ o, (auto_assign_orders s).2.1.get_order_by_id (s.pending.getD i 0) = some o
          ∧ o.status = .PREPARING
          ∧ o.baristaId
              = some (((s.baristas.filter Barista.is_available).map Barista.id).getD i 0))) := by
  by_cases he : ((s.baristas.filter Barista.is_available).map Barista.id).isEmpty
  · have hnil : (s.baristas.filter Barista.is_available).map Barista.id = [] :=
      List.isEmpty_iff.mp he
    have heq : auto_assign_orders s = (none, s, 0) := by
      simp [auto_assign_orders, he]
    rw [heq, hnil]
    exact ⟨rfl, by simp, by simp, fun i hi => by simp at hi⟩
  · have heq : auto_assign_orders s
        = auto_assign_loop s ((s.baristas.filter Barista.is_available).map Barista.id) 0 := by
      simp [auto_assign_orders, he]
    obtain ⟨l1, l2, l3, l4, l5, l6⟩ :=
      auto_assign_loop_spec ((s.baristas.filter Barista.is_available).map Barista.id) s 0
        (avail_nodup s hids) hqn hq (avail_found s hids)
    rw [heq]
    exact ⟨l1, by rw [l2]; exact Nat.zero_add _, l3, l6⟩

/-- First pending order (one Latte) for the C7 witness. -/
def w7o1 : Order :=
  { id := 11, customerId := 3, baristaId := none, items := [(latte1, 1)],
    status := .PENDING, notes := "", discount_applied := 0 }

/-- Second pending order (one Latte) for the C7 witness. -/
def w7o2 : Order :=
  { id := 12, customerId := 3, baristaId := none, items := [(latte1, 1)],
    status := .PENDING, notes := "", discount_applied := 0 }

/-- A state with two pending orders and one available barista. -/
def w7state : MState :=
  { isOpen := true, customers := [w8customer], baristas := [freeBarista1],
    orders := [w7o1, w7o2], pending := [11, 12], daily_revenue := 0 }

/-- Witness for C7: two pending orders, one available worker — exactly
min(2,1) = 1 assignment happens and order 12 stays pending. -/
theorem C7_auto_assign_orders_witness :
    w7state.pending.Nodup
    ∧ (w7state.baristas.map Barista.id).Nodup
    ∧ (∀ oid ∈ w7state.pending,
        ∃ o, w7state.get_order_by_id oid = some o ∧ o.status = .PENDING)
    ∧ (auto_assign_orders w7state).1 = none
    ∧ (auto_assign_orders w7state).2.2
        = min w7state.pending.length
            ((w7state.baristas.filter Barista.is_available).map Barista.id).length
    ∧ (auto_assign_orders w7state).2.1.pending
        = w7state.pending.drop
            ((w7state.baristas.filter Barista.is_available).map Barista.id).length := by
  have hqn : w7state.pending.Nodup := by decide
  have hids : (w7state.baristas.map Barista.id).Nodup := by
    simp [w7state, freeBarista1]
  have hq : ∀ oid ∈ w7state.pending,
      ∃ o, w7state.get_order_by_id oid = some o ∧ o.status = .PENDING := by
    intro oid hm
    have : oid = 11 ∨ oid = 12 := by simpa [w7state] using hm
    rcases this with rfl | rfl
    · exact ⟨w7o1, rfl, rfl⟩
    · exact ⟨w7o2, rfl, rfl⟩
  have hmain := C7_auto_assign_orders w7state hqn hids hq
  exact ⟨hqn, hids, hq, hmain.1, hmain.2.1, hmain.2.2.1⟩

/-- The customer JSON record written by `Customer.to_dict` (customer.py
lines 90-101): every persisted field (`created_at` dropped — a wall-clock
string no claim touches). -/
structure CustomerRecord where
  id : ℕ
  name : String
  email : String
  phone : String
  balance : ℚ
  loyalty_points : ℤ
  order_history : List HistoryEntry
  ctype : String
deriving DecidableEq, Repr

/-- The `type` discriminator string — the Python class name. -/
def customer_type_name : CustomerType → String
  | .RegularCustomer => "RegularCustomer"
  | .PremiumCustomer => "PremiumCustomer"
  | .VIPCustomer => "VIPCustomer"

/-- Source `Customer.to_dict` (customer.py lines 90-101). -/
def Customer.to_dict (c : Customer) : CustomerRecord :=
  { id := c.id, name := c.name, email := c.email, phone := c.phone,
    balance := c.balance, loyalty_points := c.loyalty_points,
    order_history := c.order_history, ctype := customer_type_name c.ctype }

/-- Source `CafeManager._load_data`, customer branch (cafe_manager.py
lines 455-479): dispatch on the `type` discriminator (unknown strings fall
back to Regular) and call the tier constructor with name/email/phone/
balance only — the constructor assigns a *fresh* id from the class counter
and resets loyalty points and history to zero/empty (customer.py lines
10-20model of `Customer.__init__`). -/
def load_customer (r : CustomerRecord) (fresh_id : ℕ) : Customer :=
  let ct : CustomerType :=
    if r.ctype = "PremiumCustomer" then .PremiumCustomer
    else if r.ctype = "VIPCustomer" then .VIPCustomer
    else .RegularCustomer
  { id := fresh_id, ctype := ct, name := r.name, email := r.email, phone := r.phone,
    balance := r.balance, loyalty_points := 0, order_history := [] }

/-- The barista JSON record written by `Barista.to_dict` (barista.py lines
240-252); the nested `statistics` dict is recomputed display data. -/
structure BaristaRecord where
  id : ℕ
  name : String
  email : String
  experience_years : ℤ
  hourly_rate : ℚ
  total_orders_completed : ℕ
  total_earnings : ℚ
  is_on_duty : Bool
deriving DecidableEq, Repr

/-- Source `Barista.to_dict` (barista.py lines 240-252). -/
def Barista.to_dict (b : Barista) : BaristaRecord :=
  { id := b.id, name := b.name, email := b.email,
    experience_years := b.experience_years, hourly_rate := b.hourly_rate,
    total_orders_completed := b.orders_completed.length,
    total_earnings := b.total_earnings, is_on_duty := b.is_on_duty }

/-- Source `CafeManager._load_data`, barista branch (cafe_manager.py lines
482-489): `Barista(name, email, experience_years, hourly_rate)` — the
constructor assigns a fresh id, empty completion log, no current order,
zero earnings, off duty (barista.py lines 9-30). -/
def load_barista (r : BaristaRecord) (fresh_id : ℕ) : Barista :=
  { id := fresh_id, name := r.name, email := r.email,
    experience_years := r.experience_years, hourly_rate := r.hourly_rate,
    orders_completed := [], current_order := none, total_earnings := 0,
    is_on_duty := false }

/-- A VIP customer with id 3 and 5 loyalty points, about to be saved. -/
def w9customer : Customer :=
  { id := 3, ctype := .VIPCustomer, name := "Can", email := "can@email.com",
    phone := "5556547890", balance := 1000, loyalty_points := 5, order_history := [] }

/-- C9 counterexample: the save/load round trip does *not* preserve a
customer's loyalty points (5 before, 0 after — `_load_data` passes only
name/email/phone/balance to the constructor, which resets points) nor the
id (reassigned from the fresh class counter, here 1 instead of 3), even
though `to_dict` had faithfully written both. -/
theorem C9_counterexample :
    w9customer.loyalty_points = 5
    ∧ (load_customer w9customer.to_dict 1).loyalty_points = 0
    ∧ w9customer.id = 3
    ∧ (load_customer w9customer.to_dict 1).id = 1
    ∧ w9customer.to_dict.loyalty_points = 5
    ∧ w9customer.to_dict.id = 3 :=
  ⟨rfl, rfl, rfl, rfl, rfl, rfl⟩

/-- C9 amended: the round trip preserves each customer's tier type,
balance, name, email and phone exactly, and each worker's experience years
and hourly rate (plus name/email) exactly; but a reloaded customer's
loyalty points are reset to 0 and its id is the fresh counter value (the
serialized values are written yet ignored on load), and a reloaded worker
starts off duty with zero earnings and an empty log. -/
theorem C9_amended_round_trip (c : Customer) (b : Barista) (i j : ℕ) :
    (load_customer c.to_dict i).ctype = c.ctype
    ∧ (load_customer c.to_dict i).balance = c.balance
    ∧ (load_customer c.to_dict i).name = c.name
    ∧ (load_customer c.to_dict i).email = c.email
    ∧ (load_customer c.to_dict i).phone = c.phone
    ∧ (load_customer c.to_dict i).loyalty_points = 0
    ∧ (load_customer c.to_dict i).id = i
    ∧ c.to_dict.loyalty_points = c.loyalty_points
    ∧ c.to_dict.id = c.id
    ∧ (load_barista b.to_dict j).experience_years = b.experience_years
    ∧ (load_barista b.to_dict j).hourly_rate = b.hourly_rate
    ∧ (load_barista b.to_dict j).name = b.name
    ∧ (load_barista b.to_dict j).email = b.email
    ∧ (load_barista b.to_dict j).is_on_duty = false
    ∧ (load_barista b.to_dict j).total_earnings = 0 := by
  obtain ⟨cid, cty, cn, ce, cp, cb, clp, chist⟩ := c
  obtain ⟨bid, bn, be, bexp, brate, bcomp, bcur, bearn, bduty⟩ := b
  cases cty <;>
    exact ⟨rfl, rfl, rfl, rfl, rfl, rfl, rfl, rfl, rfl, rfl, rfl, rfl, rfl, rfl, rfl⟩

end CoffeeShop

